import Mathlib

/-
Verification of the radar subsystem of oort3 (src/simulator/src/radar.rs).

The f64 arithmetic of the source is embedded over an arbitrary linearly
ordered field `K` (instantiated at `ℚ` for concrete evaluations).  The
transcendental ingredients the source takes from outside the subsystem —
the constant `TAU`, the `cos`/`sin`/`sqrt` intrinsics, and the
`StandardNormal` sample stream of the tick-seeded generator from
`crate::rng` — are abstracted into a context structure `Ctx`, since no
verified property depends on their concrete values, only on how the radar
code combines them.
-/

namespace Oort

/-- Two-dimensional vector over the scalar type `K`, standing for both
`nalgebra::Point2<f64>` and `nalgebra::Vector2<f64>` of the source. -/
structure Vec2 (K : Type) where
  x : K
  y : K
deriving DecidableEq

instance {K : Type} [Add K] : Add (Vec2 K) :=
  ⟨fun a b => ⟨a.x + b.x, a.y + b.y⟩⟩

instance {K : Type} [Sub K] : Sub (Vec2 K) :=
  ⟨fun a b => ⟨a.x - b.x, a.y - b.y⟩⟩

@[simp] theorem Vec2.add_def {K : Type} [Add K] (a b : Vec2 K) :
    a + b = ⟨a.x + b.x, a.y + b.y⟩ := rfl

@[simp] theorem Vec2.sub_def {K : Type} [Sub K] (a b : Vec2 K) :
    a - b = ⟨a.x - b.x, a.y - b.y⟩ := rfl

/-- Modelled from the spec: `crate::ship::ShipClass` is outside `src/`;
only equality on classes is used by the radar code, so a small inductive
with the classes named by the spec and tests suffices. -/
inductive ShipClass where
  | fighter
  | frigate
  | cruiser
  | missile
  | torpedo
  | target
deriving DecidableEq

/-- Ambient numeric context.  `tau` models the f64 constant
`std::f64::consts::TAU` (= 2π); `cos`, `sin`, `sqrt` model the f64
intrinsics used through `nalgebra::Rotation2` and `f64::sqrt`; `normal`
models the `StandardNormal` stream drawn from the generator seeded with
the tick index (`crate::rng` is outside `src/`; spec §4.6): `normal s i`
is the i-th sample of the stream seeded with `s`. -/
structure Ctx (K : Type) where
  tau : K
  cos : K → K
  sin : K → K
  sqrt : K → K
  normal : ℕ → ℕ → K

/-- Modelled from the spec (§4.6): `crate::rng::SeededRng`, a
deterministic generator identified by its seed together with how many
samples have been drawn so far. -/
structure SeededRng where
  seed : ℕ
  idx : ℕ
deriving DecidableEq

/-- Modelled from the spec (§4.6, §9): `crate::rng::new_rng(seed)` —
a fresh generator deterministically constructed from the seed. -/
def new_rng (seed : ℕ) : SeededRng := ⟨seed, 0⟩

/-- Drawing one `StandardNormal` sample: `rng.sample(StandardNormal)`. -/
def sample {K : Type} (ctx : Ctx K) (g : SeededRng) : K × SeededRng :=
  (ctx.normal g.seed g.idx, ⟨g.seed, g.idx + 1⟩)

/-- `ScanResult` (radar.rs lines 43-48). -/
structure ScanResult (K : Type) where
  shipclass : Option ShipClass
  position : Vec2 K
  velocity : Vec2 K
deriving DecidableEq

/-- `Radar` (radar.rs lines 11-20). -/
structure Radar (K : Type) where
  heading : K
  width : K
  power : K
  rx_cross_section : K
  min_rssi : K
  classify_rssi : K
  result : Option (ScanResult K)
deriving DecidableEq

/-- `RadarEmitter` (radar.rs lines 22-33); the handle is a list index. -/
structure RadarEmitter (K : Type) where
  handle : ℕ
  center : Vec2 K
  width : K
  start_bearing : K
  end_bearing : K
  power : K
  rx_cross_section : K
  min_rssi : K
  classify_rssi : K
  team : Int
deriving DecidableEq

/-- `RadarReflector` (radar.rs lines 35-41). -/
structure RadarReflector (K : Type) where
  position : Vec2 K
  velocity : Vec2 K
  radar_cross_section : K
  team : Int
  shipclass : ShipClass
deriving DecidableEq

/-- Modelled from the spec (§6): the per-agent state the simulation
registry exposes to this subsystem — position, velocity, heading, team,
class, radar cross-section, and the optional radar. -/
structure Ship (K : Type) where
  team : Int
  position : Vec2 K
  velocity : Vec2 K
  heading : K
  radar_cross_section : K
  shipclass : ShipClass
  radar : Option (Radar K)
deriving DecidableEq

/-- Modelled from the spec (§6): a debug line segment
(`crate::simulation::Line`) with its two endpoints and color. -/
structure Line (K : Type) where
  a : Vec2 K
  b : Vec2 K
  color : K × K × K × K
deriving DecidableEq

/-- Modelled from the spec (§6): the simulation state visible to this
subsystem — the ordered agent registry, the current tick index, and the
accumulated debug lines tagged by the owning handle. -/
structure Simulation (K : Type) where
  ships : List (Ship K)
  tickIdx : ℕ
  debugLines : List (ℕ × List (Line K))
deriving DecidableEq

section Defs

variable {K : Type} [LinearOrderedField K]

/-- `nalgebra::distance_squared` between two points. -/
def distance_squared (p q : Vec2 K) : K :=
  (q.x - p.x) ^ 2 + (q.y - p.y) ^ 2

/-- `check_inside_beam` (radar.rs lines 138-151).  `Rotation2::new(θ)`
applied to `[1, 0]` is the unit vector `(cos θ, sin θ)`. -/
def check_inside_beam (ctx : Ctx K) (emitter : RadarEmitter K) (point : Vec2 K) : Bool :=
  if emitter.width ≥ ctx.tau then
    true
  else
    let ray0 : Vec2 K := ⟨ctx.cos emitter.start_bearing, ctx.sin emitter.start_bearing⟩
    let ray1 : Vec2 K := ⟨ctx.cos emitter.end_bearing, ctx.sin emitter.end_bearing⟩
    let dp := point - emitter.center
    let is_clockwise : Vec2 K → Vec2 K → Bool := fun v0 v1 =>
      decide (-v0.x * v1.y + v0.y * v1.x > 0)
    if is_clockwise ray1 ray0 then
      !(is_clockwise ray0 dp) && is_clockwise ray1 dp
    else
      is_clockwise ray1 dp || !(is_clockwise ray0 dp)

/-- `compute_rssi` (radar.rs lines 153-157). -/
def compute_rssi (ctx : Ctx K) (emitter : RadarEmitter K) (reflector : RadarReflector K) : K :=
  let r_sq := distance_squared emitter.center reflector.position
  emitter.power * reflector.radar_cross_section * emitter.rx_cross_section
    / (ctx.tau * emitter.width * r_sq)

/-- `compute_approx_range` (radar.rs lines 159-164). -/
def compute_approx_range (ctx : Ctx K) (emitter : RadarEmitter K) : K :=
  let target_cross_section : K := 5
  ctx.sqrt (emitter.power * target_cross_section * emitter.rx_cross_section
    / (ctx.tau * emitter.width * emitter.min_rssi))

/-- `noise` (radar.rs lines 166-168): two `StandardNormal` draws scaled
by `1 / rssi`, with the generator threaded explicitly. -/
def noise (ctx : Ctx K) (g : SeededRng) (rssi : K) : Vec2 K × SeededRng :=
  let s1 := sample ctx g
  let s2 := sample ctx s1.2
  (⟨s1.1 * (1 / rssi), s2.1 * (1 / rssi)⟩, s2.2)

/-- The reflector built for one ship by the snapshot pass
(radar.rs lines 62-76). -/
def mkReflector (ship : Ship K) : RadarReflector K :=
  { team := ship.team
    position := ship.position
    velocity := ship.velocity
    radar_cross_section := ship.radar_cross_section
    shipclass := ship.shipclass }

/-- The emitter built for one radar-equipped ship (radar.rs lines 83-96). -/
def mkEmitter (handle : ℕ) (ship : Ship K) (radar : Radar K) : RadarEmitter K :=
  let h := radar.heading + ship.heading
  let w := radar.width
  { handle := handle
    team := ship.team
    center := ship.position
    power := radar.power
    min_rssi := radar.min_rssi
    classify_rssi := radar.classify_rssi
    rx_cross_section := radar.rx_cross_section
    width := w
    start_bearing := h - (1 / 2 : K) * w
    end_bearing := h + (1 / 2 : K) * w }

/-- The best-target loop of `tick` (radar.rs lines 99-115): the running
pair is `(best_rssi, best_reflector)`, initialized by the caller. -/
def selectLoop (ctx : Ctx K) (emitter : RadarEmitter K) :
    List (RadarReflector K) → K → Option (RadarReflector K) → K × Option (RadarReflector K)
  | [], best_rssi, best_reflector => (best_rssi, best_reflector)
  | reflector :: rest, best_rssi, best_reflector =>
    if emitter.team = reflector.team then
      selectLoop ctx emitter rest best_rssi best_reflector
    else if ¬ check_inside_beam ctx emitter reflector.position then
      selectLoop ctx emitter rest best_rssi best_reflector
    else
      let rssi := compute_rssi ctx emitter reflector
      if rssi > best_rssi then
        selectLoop ctx emitter rest rssi (some reflector)
      else
        selectLoop ctx emitter rest best_rssi best_reflector

/-- The complete best-target selection for one emitter: the loop started
from `(emitter.min_rssi, none)` (radar.rs lines 99-100). -/
def selectBest (ctx : Ctx K) (emitter : RadarEmitter K)
    (reflectors : List (RadarReflector K)) : K × Option (RadarReflector K) :=
  selectLoop ctx emitter reflectors emitter.min_rssi none

/-- A reflector survives the two `continue` filters of the loop
(radar.rs lines 101-108): opposing team and inside the beam. -/
def qualifies (ctx : Ctx K) (emitter : RadarEmitter K) (reflector : RadarReflector K) : Prop :=
  emitter.team ≠ reflector.team ∧ check_inside_beam ctx emitter reflector.position = true

instance (ctx : Ctx K) (e : RadarEmitter K) (r : RadarReflector K) :
    Decidable (qualifies ctx e r) := by
  unfold qualifies
  infer_instance

/-- Result assembly (radar.rs lines 117-125): the `ScanResult` built
from the selected candidate, drawing position noise then velocity noise
from the generator. -/
def assembleResult (ctx : Ctx K) (emitter : RadarEmitter K)
    (best : K × Option (RadarReflector K)) (g : SeededRng) :
    Option (ScanResult K) × SeededRng :=
  match best.2 with
  | none => (none, g)
  | some reflector =>
    let pn := noise ctx g best.1
    let vn := noise ctx pn.2 best.1
    (some
      { shipclass :=
          if best.1 > emitter.classify_rssi then some reflector.shipclass else none
        position := reflector.position + pn.1
        velocity := reflector.velocity + vn.1 }, vn.2)

/-- The full per-emitter radar evaluation for one tick: fresh generator
seeded from the tick index (radar.rs line 97), selection, assembly. -/
def radarResult (ctx : Ctx K) (tickIdx : ℕ) (reflectors : List (RadarReflector K))
    (emitter : RadarEmitter K) : Option (ScanResult K) :=
  (assembleResult ctx emitter (selectBest ctx emitter reflectors) (new_rng tickIdx)).1

/-- `draw_emitter` (radar.rs lines 170-202): the sector wedge polyline. -/
def draw_emitter_lines (ctx : Ctx K) (emitter : RadarEmitter K) : List (Line K) :=
  let color : K × K × K × K := (1 / 10, 1 / 5, 3 / 10, 1)
  let n : ℕ := 20
  let w := emitter.end_bearing - emitter.start_bearing
  let center := emitter.center
  let r := compute_approx_range ctx emitter
  let arcs := (List.range n).map fun i =>
    let frac : K := (i : K) / (n : K)
    let angle_a := emitter.start_bearing + w * frac
    let angle_b := emitter.start_bearing + w * (frac + 1 / (n : K))
    Line.mk
      ⟨center.x + r * ctx.cos angle_a, center.y + r * ctx.sin angle_a⟩
      ⟨center.x + r * ctx.cos angle_b, center.y + r * ctx.sin angle_b⟩
      color
  arcs ++
    [Line.mk center
      ⟨center.x + r * ctx.cos emitter.start_bearing,
        center.y + r * ctx.sin emitter.start_bearing⟩ color,
     Line.mk center
      ⟨center.x + r * ctx.cos emitter.end_bearing,
        center.y + r * ctx.sin emitter.end_bearing⟩ color]

/-- One ship's update inside the tick loop (radar.rs lines 78-134): a
ship without a radar is untouched; a radar-equipped ship has its result
overwritten and its debug wedge emitted. -/
def shipStep (ctx : Ctx K) (tickIdx : ℕ) (reflectors : List (RadarReflector K))
    (handle : ℕ) (ship : Ship K) : Ship K × List (ℕ × List (Line K)) :=
  match ship.radar with
  | none => (ship, [])
  | some radar =>
    let emitter := mkEmitter handle ship radar
    let result := radarResult ctx tickIdx reflectors emitter
    ({ ship with radar := some { radar with result := result } },
      [(emitter.handle, draw_emitter_lines ctx emitter)])

/-- One iteration of the tick loop acting on the live simulation state:
read the current ship at `handle`, compute, write back its radar result
(radar.rs lines 127-132), append its debug lines (line 133). -/
def processShip (ctx : Ctx K) (reflectors : List (RadarReflector K))
    (s : Simulation K) (handle : ℕ) : Simulation K :=
  match s.ships[handle]? with
  | none => s
  | some ship =>
    let out := shipStep ctx s.tickIdx reflectors handle ship
    { s with
        ships := s.ships.set handle out.1
        debugLines := s.debugLines ++ out.2 }

/-- `tick` (radar.rs lines 59-136): snapshot the handles and reflectors
once, then run the loop over the handles against the live state. -/
def tick (ctx : Ctx K) (sim : Simulation K) : Simulation K :=
  let reflectors := sim.ships.map mkReflector
  (List.range sim.ships.length).foldl (processShip ctx reflectors) sim

/-- `scan` (radar.rs lines 50-56).  The source takes the simulation by
mutable reference; the embedding threads the state explicitly and
returns it alongside the value.  The handle is a valid index into the
registry. -/
def scan (sim : Simulation K) (own_ship : Fin sim.ships.length) :
    Option (ScanResult K) × Simulation K :=
  match (sim.ships.get own_ship).radar with
  | some radar => (radar.result, sim)
  | none => (none, sim)

/-- The debug lines appended for the ship at index `i`, as a function of
the tick-start registry. -/
def lineOut (ctx : Ctx K) (tickIdx : ℕ) (reflectors : List (RadarReflector K))
    (ships : List (Ship K)) (i : ℕ) : List (ℕ × List (Line K)) :=
  match ships[i]? with
  | none => []
  | some ship => (shipStep ctx tickIdx reflectors i ship).2

/-- Phase one of the reference computation: every ship's outcome computed
from the tick-start registry alone, in registry order. -/
def resultPhase (ctx : Ctx K) (tickIdx : ℕ) (reflectors : List (RadarReflector K)) :
    ℕ → List (Ship K) → List (Ship K)
  | _, [] => []
  | i, ship :: rest =>
    (shipStep ctx tickIdx reflectors i ship).1 ::
      resultPhase ctx tickIdx reflectors (i + 1) rest

/-- The two-phase reference computation, written from the spec's words
(§4.1, §5): the reflector snapshot is built once; every radar's detection
outcome and debug wedge are then computed purely from that snapshot and
the owning ship's tick-start state; finally all results are committed.
No result written during the tick is visible to any computation. -/
def tickTwoPhase (ctx : Ctx K) (sim : Simulation K) : Simulation K :=
  let reflectors := sim.ships.map mkReflector
  { ships := resultPhase ctx sim.tickIdx reflectors 0 sim.ships
    tickIdx := sim.tickIdx
    debugLines := sim.debugLines ++
      ((List.range sim.ships.length).map
        (lineOut ctx sim.tickIdx reflectors sim.ships)).flatten }

end Defs

section ConcreteData

/-- Concrete context over `ℚ` used to evaluate the model on explicit
inputs: an arbitrary positive `tau` and arbitrary total functions for the
abstract trigonometric and random parts. -/
def ctxQ : Ctx ℚ where
  tau := 7
  cos := fun _ => 1
  sin := fun _ => 0
  sqrt := fun _ => 0
  normal := fun _ i => (i : ℚ) + 1

/-- A full-circle emitter (width = tau) at the origin, team 0. -/
def eW : RadarEmitter ℚ where
  handle := 0
  center := ⟨0, 0⟩
  width := 7
  start_bearing := 0
  end_bearing := 7
  power := 1
  rx_cross_section := 1
  min_rssi := 1 / 2
  classify_rssi := 3 / 4
  team := 0

/-- A same-team reflector (filtered by team equality). -/
def raW : RadarReflector ℚ where
  position := ⟨1, 1⟩
  velocity := ⟨0, 0⟩
  radar_cross_section := 49
  team := 0
  shipclass := ShipClass.fighter

/-- An opposing reflector at squared distance 1 with rssi 1. -/
def rbW : RadarReflector ℚ where
  position := ⟨1, 0⟩
  velocity := ⟨0, 0⟩
  radar_cross_section := 49
  team := 1
  shipclass := ShipClass.target

/-- A second opposing reflector with the same rssi 1 (an exact tie). -/
def rcW : RadarReflector ℚ where
  position := ⟨-1, 0⟩
  velocity := ⟨0, 0⟩
  radar_cross_section := 49
  team := 1
  shipclass := ShipClass.cruiser

/-- Snapshot: a teammate, then two tied opposing reflectors. -/
def rsW : List (RadarReflector ℚ) := [raW, rbW, rcW]

/-- A radar configured with width exactly 0. -/
def radarW0 : Radar ℚ where
  heading := 1
  width := 0
  power := 1
  rx_cross_section := 1
  min_rssi := 0
  classify_rssi := 0
  result := none

/-- A ship carrying `radarW0`. -/
def shipW : Ship ℚ where
  team := 0
  position := ⟨0, 0⟩
  velocity := ⟨0, 0⟩
  heading := 2
  radar_cross_section := 1
  shipclass := ShipClass.fighter
  radar := some radarW0

/-- An emitter placed exactly on top of the reflector `rC8`. -/
def eC8 : RadarEmitter ℚ where
  handle := 0
  center := ⟨3, 4⟩
  width := 1
  start_bearing := 0
  end_bearing := 1
  power := 1
  rx_cross_section := 1
  min_rssi := 0
  classify_rssi := 0
  team := 0

/-- A reflector coincident with the emitter `eC8`. -/
def rC8 : RadarReflector ℚ where
  position := ⟨3, 4⟩
  velocity := ⟨0, 0⟩
  radar_cross_section := 1
  team := 1
  shipclass := ShipClass.target

/-- The radar carried by both ships of the two-emitter scenario. -/
def radarC7 : Radar ℚ where
  heading := 0
  width := 7
  power := 1
  rx_cross_section := 1
  min_rssi := 1 / 2
  classify_rssi := 1 / 2
  result := none

/-- First ship of the two-emitter scenario: team 0 at the origin. -/
def ship0C7 : Ship ℚ where
  team := 0
  position := ⟨0, 0⟩
  velocity := ⟨0, 0⟩
  heading := 0
  radar_cross_section := 49
  shipclass := ShipClass.fighter
  radar := some radarC7

/-- Second ship of the two-emitter scenario: team 1 at distance 1. -/
def ship1C7 : Ship ℚ where
  team := 1
  position := ⟨1, 0⟩
  velocity := ⟨0, 0⟩
  heading := 0
  radar_cross_section := 49
  shipclass := ShipClass.target
  radar := some radarC7

/-- Two opposing radar-equipped ships, both detecting each other with
rssi exactly 1, evaluated in the same tick. -/
def simC7 : Simulation ℚ where
  ships := [ship0C7, ship1C7]
  tickIdx := 0
  debugLines := []

end ConcreteData

section SelectorLemmas

variable {K : Type} [LinearOrderedField K]

theorem selectLoop_nil (ctx : Ctx K) (e : RadarEmitter K) (b : K)
    (o : Option (RadarReflector K)) : selectLoop ctx e [] b o = (b, o) := rfl

theorem selectLoop_cons_team (ctx : Ctx K) (e : RadarEmitter K)
    (r : RadarReflector K) (rest : List (RadarReflector K)) (b : K)
    (o : Option (RadarReflector K)) (h : e.team = r.team) :
    selectLoop ctx e (r :: rest) b o = selectLoop ctx e rest b o := by
  rw [selectLoop, if_pos h]

theorem selectLoop_cons_outside (ctx : Ctx K) (e : RadarEmitter K)
    (r : RadarReflector K) (rest : List (RadarReflector K)) (b : K)
    (o : Option (RadarReflector K)) (h : e.team ≠ r.team)
    (hb : ¬ check_inside_beam ctx e r.position = true) :
    selectLoop ctx e (r :: rest) b o = selectLoop ctx e rest b o := by
  rw [selectLoop, if_neg h, if_pos]
  simpa using hb

theorem selectLoop_cons_improve (ctx : Ctx K) (e : RadarEmitter K)
    (r : RadarReflector K) (rest : List (RadarReflector K)) (b : K)
    (o : Option (RadarReflector K)) (h : e.team ≠ r.team)
    (hb : check_inside_beam ctx e r.position = true)
    (hr : compute_rssi ctx e r > b) :
    selectLoop ctx e (r :: rest) b o =
      selectLoop ctx e rest (compute_rssi ctx e r) (some r) := by
  rw [selectLoop, if_neg h, if_neg (by simpa using hb)]
  simp only [if_pos hr]

theorem selectLoop_cons_keep (ctx : Ctx K) (e : RadarEmitter K)
    (r : RadarReflector K) (rest : List (RadarReflector K)) (b : K)
    (o : Option (RadarReflector K)) (h : e.team ≠ r.team)
    (hb : check_inside_beam ctx e r.position = true)
    (hr : ¬ compute_rssi ctx e r > b) :
    selectLoop ctx e (r :: rest) b o = selectLoop ctx e rest b o := by
  rw [selectLoop, if_neg h, if_neg (by simpa using hb)]
  simp only [if_neg hr]

theorem selectLoop_fst_mono (ctx : Ctx K) (e : RadarEmitter K) :
    ∀ (rs : List (RadarReflector K)) (b : K) (o : Option (RadarReflector K)),
      b ≤ (selectLoop ctx e rs b o).1 := by
  intro rs
  induction rs with
  | nil => intro b o; rw [selectLoop_nil]
  | cons r rest ih =>
    intro b o
    by_cases ht : e.team = r.team
    · rw [selectLoop_cons_team ctx e r rest b o ht]; exact ih b o
    · by_cases hb : check_inside_beam ctx e r.position = true
      · by_cases hr : compute_rssi ctx e r > b
        · rw [selectLoop_cons_improve ctx e r rest b o ht hb hr]
          exact le_of_lt (lt_of_lt_of_le hr (ih _ _))
        · rw [selectLoop_cons_keep ctx e r rest b o ht hb hr]; exact ih b o
      · rw [selectLoop_cons_outside ctx e r rest b o ht hb]; exact ih b o

theorem selectLoop_fst_ub (ctx : Ctx K) (e : RadarEmitter K) :
    ∀ (rs : List (RadarReflector K)) (b : K) (o : Option (RadarReflector K)),
      ∀ r' ∈ rs, qualifies ctx e r' →
        compute_rssi ctx e r' ≤ (selectLoop ctx e rs b o).1 := by
  intro rs
  induction rs with
  | nil => intro b o r' h; exact absurd h (List.not_mem_nil r')
  | cons r rest ih =>
    intro b o r' hmem hq
    by_cases ht : e.team = r.team
    · rw [selectLoop_cons_team ctx e r rest b o ht]
      rcases List.mem_cons.mp hmem with rfl | hmem'
      · exact absurd ht hq.1
      · exact ih b o r' hmem' hq
    · by_cases hb : check_inside_beam ctx e r.position = true
      · by_cases hr : compute_rssi ctx e r > b
        · rw [selectLoop_cons_improve ctx e r rest b o ht hb hr]
          rcases List.mem_cons.mp hmem with rfl | hmem'
          · exact selectLoop_fst_mono ctx e rest _ _
          · exact ih _ _ r' hmem' hq
        · rw [selectLoop_cons_keep ctx e r rest b o ht hb hr]
          rcases List.mem_cons.mp hmem with rfl | hmem'
          · exact le_trans (not_lt.mp hr) (selectLoop_fst_mono ctx e rest _ _)
          · exact ih b o r' hmem' hq
      · rw [selectLoop_cons_outside ctx e r rest b o ht hb]
        rcases List.mem_cons.mp hmem with rfl | hmem'
        · exact absurd hq.2 hb
        · exact ih b o r' hmem' hq

theorem selectLoop_cases (ctx : Ctx K) (e : RadarEmitter K) :
    ∀ (rs : List (RadarReflector K)) (b : K) (o : Option (RadarReflector K)),
      selectLoop ctx e rs b o = (b, o) ∨
      ∃ l₁ r l₂, rs = l₁ ++ r :: l₂ ∧ qualifies ctx e r ∧
        (selectLoop ctx e rs b o).1 = compute_rssi ctx e r ∧
        (selectLoop ctx e rs b o).2 = some r ∧
        b < compute_rssi ctx e r ∧
        ∀ r' ∈ l₁, qualifies ctx e r' →
          compute_rssi ctx e r' < compute_rssi ctx e r := by
  intro rs
  induction rs with
  | nil => intro b o; exact Or.inl rfl
  | cons r rest ih =>
    intro b o
    by_cases ht : e.team = r.team
    · rw [selectLoop_cons_team ctx e r rest b o ht]
      rcases ih b o with h | ⟨l₁, r₀, l₂, hs, hq, h1, h2, hlt, hpre⟩
      · exact Or.inl h
      · refine Or.inr ⟨r :: l₁, r₀, l₂, by rw [hs, List.cons_append], hq, h1, h2, hlt, ?_⟩
        intro r' hmem hq'
        rcases List.mem_cons.mp hmem with rfl | hmem'
        · exact absurd ht hq'.1
        · exact hpre r' hmem' hq'
    · by_cases hb : check_inside_beam ctx e r.position = true
      · by_cases hr : compute_rssi ctx e r > b
        · rw [selectLoop_cons_improve ctx e r rest b o ht hb hr]
          rcases ih (compute_rssi ctx e r) (some r) with h | ⟨l₁, r₀, l₂, hs, hq, h1, h2, hlt, hpre⟩
          · refine Or.inr ⟨[], r, rest, rfl, ⟨ht, hb⟩, ?_, ?_, hr, ?_⟩
            · rw [h]
            · rw [h]
            · intro r' hmem; exact absurd hmem (List.not_mem_nil r')
          · refine Or.inr ⟨r :: l₁, r₀, l₂, by rw [hs, List.cons_append], hq, h1, h2, lt_trans hr hlt, ?_⟩
            intro r' hmem hq'
            rcases List.mem_cons.mp hmem with rfl | hmem'
            · exact hlt
            · exact hpre r' hmem' hq'
        · rw [selectLoop_cons_keep ctx e r rest b o ht hb hr]
          rcases ih b o with h | ⟨l₁, r₀, l₂, hs, hq, h1, h2, hlt, hpre⟩
          · exact Or.inl h
          · refine Or.inr ⟨r :: l₁, r₀, l₂, by rw [hs, List.cons_append], hq, h1, h2, hlt, ?_⟩
            intro r' hmem hq'
            rcases List.mem_cons.mp hmem with rfl | hmem'
            · exact lt_of_le_of_lt (not_lt.mp hr) hlt
            · exact hpre r' hmem' hq'
      · rw [selectLoop_cons_outside ctx e r rest b o ht hb]
        rcases ih b o with h | ⟨l₁, r₀, l₂, hs, hq, h1, h2, hlt, hpre⟩
        · exact Or.inl h
        · refine Or.inr ⟨r :: l₁, r₀, l₂, by rw [hs, List.cons_append], hq, h1, h2, hlt, ?_⟩
          intro r' hmem hq'
          rcases List.mem_cons.mp hmem with rfl | hmem'
          · exact absurd hq'.2 hb
          · exact hpre r' hmem' hq'

/-- Packaged facts about a successful selection, for reuse below. -/
theorem selectBest_some (ctx : Ctx K) (e : RadarEmitter K)
    (rs : List (RadarReflector K)) (r : RadarReflector K)
    (h : (selectBest ctx e rs).2 = some r) :
    qualifies ctx e r ∧
    (selectBest ctx e rs).1 = compute_rssi ctx e r ∧
    e.min_rssi < compute_rssi ctx e r ∧
    (∀ r' ∈ rs, qualifies ctx e r' → compute_rssi ctx e r' ≤ compute_rssi ctx e r) ∧
    ∃ l₁ l₂, rs = l₁ ++ r :: l₂ ∧
      ∀ r' ∈ l₁, qualifies ctx e r' → compute_rssi ctx e r' < compute_rssi ctx e r := by
  rcases selectLoop_cases ctx e rs e.min_rssi none with heq | ⟨l₁, r₀, l₂, hs, hq, h1, h2, hlt, hpre⟩
  · unfold selectBest at h
    rw [heq] at h
    exact absurd h (by simp)
  · unfold selectBest at h
    rw [h2] at h
    cases Option.some.inj h
    refine ⟨hq, h1, hlt, ?_, l₁, l₂, hs, hpre⟩
    intro r' hmem hq'
    have := selectLoop_fst_ub ctx e rs e.min_rssi none r' hmem hq'
    rw [h1] at this
    exact this

/-- Packaged facts about a failed selection, for reuse below. -/
theorem selectBest_none (ctx : Ctx K) (e : RadarEmitter K)
    (rs : List (RadarReflector K)) (h : (selectBest ctx e rs).2 = none) :
    ∀ r' ∈ rs, qualifies ctx e r' → compute_rssi ctx e r' ≤ e.min_rssi := by
  rcases selectLoop_cases ctx e rs e.min_rssi none with heq | ⟨_, r₀, _, _, _, _, h2, _, _⟩
  · intro r' hmem hq'
    have := selectLoop_fst_ub ctx e rs e.min_rssi none r' hmem hq'
    rw [heq] at this
    exact this
  · unfold selectBest at h
    rw [h2] at h
    exact absurd h (by simp)

end SelectorLemmas

section BeamLemmas

variable {K : Type} [LinearOrderedField K]

theorem check_inside_beam_full (ctx : Ctx K) (e : RadarEmitter K) (pt : Vec2 K)
    (h : ctx.tau ≤ e.width) : check_inside_beam ctx e pt = true := by
  unfold check_inside_beam
  rw [if_pos (show e.width ≥ ctx.tau from h)]

theorem check_inside_beam_start_eq_end (ctx : Ctx K) (e : RadarEmitter K)
    (pt : Vec2 K) (h : e.start_bearing = e.end_bearing) :
    check_inside_beam ctx e pt = true := by
  by_cases hw : e.width ≥ ctx.tau
  · unfold check_inside_beam
    rw [if_pos hw]
  · unfold check_inside_beam
    rw [if_neg hw]
    simp only [h]
    have h0 : -(ctx.cos e.end_bearing) * ctx.sin e.end_bearing
        + ctx.sin e.end_bearing * ctx.cos e.end_bearing = 0 := by ring
    simp only [neg_mul] at h0 ⊢
    rw [h0]
    simp

end BeamLemmas

section Claims1

/-- C1: for every emitter with a radar, the best-target selector returns
the reflector with the maximum intensity among reflectors that are not on
the emitter's team and are inside the beam, and only if that maximum
strictly exceeds `min_rssi`: the running best is initialized to
`min_rssi`, each later candidate must strictly exceed the current leader,
and on equal intensities the first-encountered candidate (in snapshot
order) wins. -/
theorem selectBest_max_candidate {K : Type} [LinearOrderedField K] (ctx : Ctx K)
    (e : RadarEmitter K) (rs : List (RadarReflector K)) :
    (∀ r, (selectBest ctx e rs).2 = some r →
      qualifies ctx e r ∧
      (selectBest ctx e rs).1 = compute_rssi ctx e r ∧
      e.min_rssi < compute_rssi ctx e r ∧
      (∀ r' ∈ rs, qualifies ctx e r' →
        compute_rssi ctx e r' ≤ compute_rssi ctx e r) ∧
      ∃ l₁ l₂, rs = l₁ ++ r :: l₂ ∧
        ∀ r' ∈ l₁, qualifies ctx e r' →
          compute_rssi ctx e r' < compute_rssi ctx e r) ∧
    ((selectBest ctx e rs).2 = none →
      ∀ r' ∈ rs, qualifies ctx e r' → compute_rssi ctx e r' ≤ e.min_rssi) :=
  ⟨fun r h => selectBest_some ctx e rs r h, fun h => selectBest_none ctx e rs h⟩

/-- Witness for C1 at an explicit input: the teammate `raW` is ignored,
the tied pair `rbW`, `rcW` both have rssi 1, and the first-encountered
`rbW` wins with an intensity strictly above `min_rssi`. -/
theorem selectBest_max_candidate_witness :
    qualifies ctxQ eW rbW ∧ eW.min_rssi < compute_rssi ctxQ eW rbW ∧
      (selectBest ctxQ eW rsW).1 = compute_rssi ctxQ eW rbW ∧
      compute_rssi ctxQ eW rcW ≤ compute_rssi ctxQ eW rbW := by
  obtain ⟨hq, h1, h2, hub, _⟩ :=
    (selectBest_max_candidate ctxQ eW rsW).1 rbW (by
      norm_num [selectBest, selectLoop, compute_rssi, distance_squared,
        check_inside_beam, ctxQ, eW, raW, rbW, rcW, rsW])
  refine ⟨hq, h2, h1, hub rcW (by simp [rsW]) ?_⟩
  constructor
  · norm_num [eW, rcW]
  · exact check_inside_beam_full ctxQ eW rcW.position (by norm_num [ctxQ, eW])

/-- C5: a selected reflector is never on the emitter's team, for every
geometry and every signal strength; consequently an emitter built from a
ship never selects that ship's own reflector. -/
theorem team_equality_excludes {K : Type} [LinearOrderedField K] (ctx : Ctx K) :
    (∀ (e : RadarEmitter K) (rs : List (RadarReflector K)) (r : RadarReflector K),
      (selectBest ctx e rs).2 = some r → e.team ≠ r.team) ∧
    ∀ (handle : ℕ) (ship : Ship K) (radar : Radar K)
      (rs : List (RadarReflector K)) (r : RadarReflector K),
      (selectBest ctx (mkEmitter handle ship radar) rs).2 = some r →
        r ≠ mkReflector ship := by
  constructor
  · intro e rs r h
    exact (selectBest_some ctx e rs r h).1.1
  · intro handle ship radar rs r h heq
    have hne := (selectBest_some ctx (mkEmitter handle ship radar) rs r h).1.1
    apply hne
    rw [heq]
    rfl

/-- Witness for C5 at an explicit input: the selected reflector `rbW` is
on the opposing team. -/
theorem team_equality_excludes_witness : eW.team ≠ rbW.team :=
  (team_equality_excludes ctxQ).1 eW rsW rbW (by
    norm_num [selectBest, selectLoop, compute_rssi, distance_squared,
      check_inside_beam, ctxQ, eW, raW, rbW, rcW, rsW])

/-- C4: `compute_rssi` is exactly power × reflector cross-section ×
receiver cross-section / (TAU × width × squared distance between the
emitter center and the reflector position), with `ctx.tau` standing for
the f64 constant `TAU` = 2π. -/
theorem compute_rssi_formula {K : Type} [LinearOrderedField K] (ctx : Ctx K)
    (e : RadarEmitter K) (r : RadarReflector K) :
    compute_rssi ctx e r =
      e.power * r.radar_cross_section * e.rx_cross_section /
        (ctx.tau * e.width *
          ((r.position.x - e.center.x) ^ 2 + (r.position.y - e.center.y) ^ 2)) := rfl

/-- C10: an emitter built from a radar with width exactly 0 has equal
start and end bearings, and `check_inside_beam` returns true for every
point: a zero-width sector behaves as full coverage, not as empty. -/
theorem zero_width_beam_full_coverage {K : Type} [LinearOrderedField K]
    (ctx : Ctx K) (handle : ℕ) (ship : Ship K) (radar : Radar K) (pt : Vec2 K)
    (h : radar.width = 0) :
    check_inside_beam ctx (mkEmitter handle ship radar) pt = true := by
  apply check_inside_beam_start_eq_end
  show radar.heading + ship.heading - (1 / 2 : K) * radar.width =
    radar.heading + ship.heading + (1 / 2 : K) * radar.width
  rw [h]
  ring

/-- Witness for C10 at an explicit input: `radarW0` has width 0 and its
beam contains the arbitrary point (3, 4). -/
theorem zero_width_beam_full_coverage_witness :
    radarW0.width = 0 ∧
      check_inside_beam ctxQ (mkEmitter 0 shipW radarW0) ⟨3, 4⟩ = true :=
  ⟨rfl, zero_width_beam_full_coverage ctxQ 0 shipW radarW0 ⟨3, 4⟩ rfl⟩

/-- C6: for an emitter with width ≥ TAU, `check_inside_beam` returns true
for every point, and any opposing-team reflector whose intensity exceeds
`min_rssi` forces a detection regardless of bearing. -/
theorem full_circle_always_detects {K : Type} [LinearOrderedField K]
    (ctx : Ctx K) (e : RadarEmitter K) (h : ctx.tau ≤ e.width) :
    (∀ pt, check_inside_beam ctx e pt = true) ∧
    ∀ rs : List (RadarReflector K),
      (∃ r ∈ rs, e.team ≠ r.team ∧ e.min_rssi < compute_rssi ctx e r) →
        ((selectBest ctx e rs).2).isSome = true := by
  constructor
  · intro pt
    exact check_inside_beam_full ctx e pt h
  · rintro rs ⟨r, hmem, hteam, hrssi⟩
    cases hsel : (selectBest ctx e rs).2 with
    | some r₀ => rfl
    | none =>
      have hle := selectBest_none ctx e rs hsel r hmem
        ⟨hteam, check_inside_beam_full ctx e r.position h⟩
      exact absurd hrssi (not_lt.mpr hle)

/-- Witness for C6 at an explicit input: the full-circle emitter `eW`
contains the point (5, 5) and detects among `rsW`. -/
theorem full_circle_always_detects_witness :
    check_inside_beam ctxQ eW ⟨5, 5⟩ = true ∧
      ((selectBest ctxQ eW rsW).2).isSome = true := by
  have h := full_circle_always_detects ctxQ eW (by norm_num [ctxQ, eW])
  refine ⟨h.1 ⟨5, 5⟩, h.2 rsW ⟨rbW, by simp [rsW], by norm_num [eW, rbW], ?_⟩⟩
  norm_num [compute_rssi, distance_squared, ctxQ, eW, rbW]

end Claims1

section Claims2

/-- C3: for every tick and radar-equipped emitter, the committed
`ScanResult` is present iff some candidate's intensity strictly exceeds
`min_rssi`, and when present it contains a class iff the winning
intensity strictly exceeds `classify_rssi`, independent of whether
classification occurred. -/
theorem classification_and_presence {K : Type} [LinearOrderedField K]
    (ctx : Ctx K) (tickIdx : ℕ) (reflectors : List (RadarReflector K))
    (e : RadarEmitter K) :
    ((radarResult ctx tickIdx reflectors e).isSome = true ↔
      ∃ r ∈ reflectors, qualifies ctx e r ∧ e.min_rssi < compute_rssi ctx e r) ∧
    ∀ sr, radarResult ctx tickIdx reflectors e = some sr →
      (sr.shipclass.isSome = true ↔ e.classify_rssi < (selectBest ctx e reflectors).1) := by
  cases hsel : (selectBest ctx e reflectors).2 with
  | none =>
    have hres : radarResult ctx tickIdx reflectors e = none := by
      unfold radarResult assembleResult
      rw [hsel]
    constructor
    · rw [hres]
      simp only [Option.isSome_none, Bool.false_eq_true, false_iff]
      rintro ⟨r, hmem, hq, hgt⟩
      exact absurd hgt (not_lt.mpr (selectBest_none ctx e reflectors hsel r hmem hq))
    · intro sr hsr
      rw [hres] at hsr
      exact Option.noConfusion hsr
  | some r₀ =>
    obtain ⟨hq, h1, hmin, hub, l₁, l₂, hsplit, hpre⟩ :=
      selectBest_some ctx e reflectors r₀ hsel
    have hres : radarResult ctx tickIdx reflectors e = some
        { shipclass :=
            if (selectBest ctx e reflectors).1 > e.classify_rssi
            then some r₀.shipclass else none
          position := r₀.position +
            (noise ctx (new_rng tickIdx) (selectBest ctx e reflectors).1).1
          velocity := r₀.velocity +
            (noise ctx (noise ctx (new_rng tickIdx) (selectBest ctx e reflectors).1).2
              (selectBest ctx e reflectors).1).1 } := by
      unfold radarResult assembleResult
      rw [hsel]
    constructor
    · rw [hres]
      simp only [Option.isSome_some, true_iff]
      refine ⟨r₀, ?_, hq, hmin⟩
      rw [hsplit]
      exact List.mem_append_right l₁ (List.mem_cons_self r₀ l₂)
    · intro sr hsr
      rw [hres] at hsr
      cases Option.some.inj hsr
      dsimp only
      by_cases hcl : (selectBest ctx e reflectors).1 > e.classify_rssi
      · rw [if_pos hcl]
        simp only [Option.isSome_some, true_iff]
        exact hcl
      · rw [if_neg hcl]
        simp only [Option.isSome_none, Bool.false_eq_true, false_iff]
        exact hcl

/-- Witness for C3 at an explicit input: the emitter `eW` over `rsW`
produces a present result whose class is revealed, since the winning
intensity 1 exceeds both thresholds. -/
theorem classification_and_presence_witness :
    (radarResult ctxQ 0 rsW eW).isSome = true ∧
      (ScanResult.mk (some ShipClass.target) ⟨2, 2⟩ ⟨3, 4⟩ : ScanResult ℚ).shipclass.isSome
        = true := by
  have h := classification_and_presence ctxQ 0 rsW eW
  constructor
  · refine h.1.mpr ⟨rbW, by simp [rsW], ⟨by norm_num [eW, rbW], ?_⟩, ?_⟩
    · exact check_inside_beam_full ctxQ eW rbW.position (by norm_num [ctxQ, eW])
    · norm_num [compute_rssi, distance_squared, ctxQ, eW, rbW]
  · refine (h.2 ⟨some ShipClass.target, ⟨2, 2⟩, ⟨3, 4⟩⟩ ?_).mpr ?_
    · norm_num [radarResult, assembleResult, selectBest, selectLoop, compute_rssi,
        distance_squared, check_inside_beam, noise, sample, new_rng,
        ctxQ, eW, raW, rbW, rcW, rsW]
    · norm_num [selectBest, selectLoop, compute_rssi, distance_squared,
        check_inside_beam, ctxQ, eW, raW, rbW, rcW, rsW]

/-- C9: `scan` returns the radar's currently stored result, or `none` if
the agent has no radar, and leaves the entire simulation state unchanged
(the source takes the state by mutable reference; the embedding returns
it explicitly). -/
theorem scan_pure_read {K : Type} [LinearOrderedField K]
    (sim : Simulation K) (own_ship : Fin sim.ships.length) :
    (scan sim own_ship).2 = sim ∧
    (scan sim own_ship).1 =
      Option.bind (sim.ships.get own_ship).radar (fun radar => radar.result) := by
  simp only [List.get_eq_getElem]
  unfold scan
  split
  next radar heq =>
    refine ⟨rfl, ?_⟩
    rw [List.get_eq_getElem] at heq
    rw [heq]
    rfl
  next heq =>
    refine ⟨rfl, ?_⟩
    rw [List.get_eq_getElem] at heq
    rw [heq]
    rfl

/-- C8 is refuted by the code: `compute_rssi` (radar.rs lines 153-157)
divides by the raw squared distance with no minimum-distance clamp.  At
the coincident pair `eC8`/`rC8` the squared distance — and with it the
entire divisor TAU × width × r² — is exactly 0, so the f64 division of
the source produces a non-finite intensity there (the exact-field model
shows the unguarded zero divisor; it has no non-finite values). -/
theorem compute_rssi_unclamped_at_zero_distance :
    distance_squared eC8.center rC8.position = 0 ∧
    ctxQ.tau * eC8.width * distance_squared eC8.center rC8.position = 0 ∧
    compute_rssi ctxQ eC8 rC8 =
      eC8.power * rC8.radar_cross_section * eC8.rx_cross_section /
        (ctxQ.tau * eC8.width * 0) := by
  refine ⟨?_, ?_, ?_⟩ <;>
    norm_num [distance_squared, compute_rssi, ctxQ, eC8, rC8]

end Claims2

section TickLemmas

variable {K : Type} [LinearOrderedField K]

omit [LinearOrderedField K] in
theorem Simulation.eq_of_fields {s1 s2 : Simulation K} (h1 : s1.ships = s2.ships)
    (h2 : s1.tickIdx = s2.tickIdx) (h3 : s1.debugLines = s2.debugLines) :
    s1 = s2 := by
  cases s1
  cases s2
  cases h1
  cases h2
  cases h3
  rfl

theorem processShip_tickIdx (ctx : Ctx K) (reflectors : List (RadarReflector K))
    (s : Simulation K) (i : ℕ) :
    (processShip ctx reflectors s i).tickIdx = s.tickIdx := by
  unfold processShip
  split <;> rfl

theorem foldl_processShip_tickIdx (ctx : Ctx K) (reflectors : List (RadarReflector K)) :
    ∀ (l : List ℕ) (s : Simulation K),
      (l.foldl (processShip ctx reflectors) s).tickIdx = s.tickIdx := by
  intro l
  induction l with
  | nil => intro s; rfl
  | cons i t ih =>
    intro s
    rw [List.foldl_cons, ih, processShip_tickIdx]

theorem processShip_getElem?_ne (ctx : Ctx K) (reflectors : List (RadarReflector K))
    (s : Simulation K) (i j : ℕ) (h : j ≠ i) :
    (processShip ctx reflectors s i).ships[j]? = s.ships[j]? := by
  unfold processShip
  split
  · rfl
  · exact List.getElem?_set_ne (Ne.symm h)

theorem processShip_getElem?_self (ctx : Ctx K) (reflectors : List (RadarReflector K))
    (s : Simulation K) (i : ℕ) :
    (processShip ctx reflectors s i).ships[i]? =
      (s.ships[i]?).map (fun sh => (shipStep ctx s.tickIdx reflectors i sh).1) := by
  unfold processShip
  split
  next heq =>
    rw [heq]
    rfl
  next ship heq =>
    obtain ⟨hlt, _⟩ := List.getElem?_eq_some.mp heq
    rw [heq]
    exact List.getElem?_set_eq_of_lt _ hlt

theorem foldl_processShip_ships (ctx : Ctx K) (reflectors : List (RadarReflector K)) :
    ∀ (m k : ℕ) (s : Simulation K) (j : ℕ),
      ((List.range' k m).foldl (processShip ctx reflectors) s).ships[j]? =
        if k ≤ j ∧ j < k + m then
          (s.ships[j]?).map (fun sh => (shipStep ctx s.tickIdx reflectors j sh).1)
        else s.ships[j]? := by
  intro m
  induction m with
  | zero =>
    intro k s j
    rw [if_neg (by omega)]
    rfl
  | succ m ih =>
    intro k s j
    rw [List.range'_succ, List.foldl_cons]
    by_cases hj : j = k
    · subst hj
      rw [ih (j + 1) (processShip ctx reflectors s j) j]
      rw [if_neg (by omega), if_pos (by omega)]
      rw [processShip_getElem?_self]
    · rw [ih (k + 1) (processShip ctx reflectors s k) j, processShip_tickIdx]
      by_cases hcond : k + 1 ≤ j ∧ j < k + 1 + m
      · rw [if_pos hcond, if_pos (by omega)]
        rw [processShip_getElem?_ne ctx reflectors s k j hj]
      · rw [if_neg hcond, if_neg (by omega)]
        rw [processShip_getElem?_ne ctx reflectors s k j hj]

theorem processShip_debugLines (ctx : Ctx K) (reflectors : List (RadarReflector K))
    (s : Simulation K) (i : ℕ) :
    (processShip ctx reflectors s i).debugLines =
      s.debugLines ++ lineOut ctx s.tickIdx reflectors s.ships i := by
  unfold processShip lineOut
  split
  next heq =>
    simp
  next ship heq =>
    rfl

theorem foldl_processShip_debugLines (ctx : Ctx K)
    (reflectors : List (RadarReflector K)) :
    ∀ (m k : ℕ) (s : Simulation K),
      ((List.range' k m).foldl (processShip ctx reflectors) s).debugLines =
        s.debugLines ++
          ((List.range' k m).map (lineOut ctx s.tickIdx reflectors s.ships)).flatten := by
  intro m
  induction m with
  | zero => intro k s; simp
  | succ m ih =>
    intro k s
    rw [List.range'_succ, List.foldl_cons, ih (k + 1) (processShip ctx reflectors s k)]
    rw [processShip_tickIdx]
    have hmap : (List.range' (k + 1) m).map
        (lineOut ctx s.tickIdx reflectors (processShip ctx reflectors s k).ships) =
        (List.range' (k + 1) m).map (lineOut ctx s.tickIdx reflectors s.ships) := by
      apply List.map_congr_left
      intro i hi
      have hik : i ≠ k := by
        have := List.mem_range'_1.mp hi
        omega
      unfold lineOut
      rw [processShip_getElem?_ne ctx reflectors s k i hik]
    rw [hmap, processShip_debugLines]
    rw [List.map_cons, List.flatten_cons, List.append_assoc]

theorem resultPhase_getElem? (ctx : Ctx K) (tickIdx : ℕ)
    (reflectors : List (RadarReflector K)) :
    ∀ (l : List (Ship K)) (i j : ℕ),
      (resultPhase ctx tickIdx reflectors i l)[j]? =
        (l[j]?).map (fun sh => (shipStep ctx tickIdx reflectors (i + j) sh).1) := by
  intro l
  induction l with
  | nil => intro i j; simp [resultPhase]
  | cons ship rest ih =>
    intro i j
    cases j with
    | zero => simp [resultPhase]
    | succ j =>
      have harith : i + 1 + j = i + (j + 1) := by omega
      simp [resultPhase, ih (i + 1) j, harith]

end TickLemmas

section Claims3

/-- C2: `tick` is equivalent to the two-phase reference computation in
which every emitter's detection decision is a function only of the
reflector snapshot and the registry state from before any radar is
evaluated: a result written for an earlier-evaluated emitter in the same
tick never changes any later emitter's outcome. -/
theorem tick_eq_twoPhase {K : Type} [LinearOrderedField K] (ctx : Ctx K)
    (sim : Simulation K) : tick ctx sim = tickTwoPhase ctx sim := by
  apply Simulation.eq_of_fields
  · apply List.ext_getElem?
    intro j
    show ((List.range sim.ships.length).foldl
        (processShip ctx (sim.ships.map mkReflector)) sim).ships[j]? =
      (resultPhase ctx sim.tickIdx (sim.ships.map mkReflector) 0 sim.ships)[j]?
    rw [List.range_eq_range', foldl_processShip_ships, resultPhase_getElem?]
    simp only [Nat.zero_add]
    by_cases hj : j < sim.ships.length
    · rw [if_pos ⟨Nat.zero_le j, by omega⟩]
    · rw [if_neg (by omega), List.getElem?_eq_none (show sim.ships.length ≤ j by omega)]
      rfl
  · show ((List.range sim.ships.length).foldl
        (processShip ctx (sim.ships.map mkReflector)) sim).tickIdx = sim.tickIdx
    exact foldl_processShip_tickIdx ctx (sim.ships.map mkReflector) _ sim
  · show ((List.range sim.ships.length).foldl
        (processShip ctx (sim.ships.map mkReflector)) sim).debugLines =
      sim.debugLines ++
        ((List.range sim.ships.length).map
          (lineOut ctx sim.tickIdx (sim.ships.map mkReflector) sim.ships)).flatten
    rw [List.range_eq_range', foldl_processShip_debugLines]

end Claims3

section Claims4

/-- C7 (amended): the noise generator is deterministically seeded from
the current tick index, but it is created afresh for every emitter
inside the per-ship loop (radar.rs line 97), so the committed result of
every radar-equipped ship is computed with `new_rng sim.tickIdx`: all
emitters of one tick consume the same draws from identically seeded
streams, rather than sharing one advancing stream. -/
theorem tick_rng_fresh_per_emitter {K : Type} [LinearOrderedField K]
    (ctx : Ctx K) (sim : Simulation K) (i : ℕ) (ship : Ship K) (radar : Radar K)
    (h1 : sim.ships[i]? = some ship) (h2 : ship.radar = some radar) :
    (tick ctx sim).ships[i]? = some { ship with radar := some { radar with
      result := (assembleResult ctx (mkEmitter i ship radar)
        (selectBest ctx (mkEmitter i ship radar) (sim.ships.map mkReflector))
        (new_rng sim.tickIdx)).1 } } := by
  obtain ⟨hlt, _⟩ := List.getElem?_eq_some.mp h1
  show ((List.range sim.ships.length).foldl
      (processShip ctx (sim.ships.map mkReflector)) sim).ships[i]? = _
  rw [List.range_eq_range', foldl_processShip_ships,
    if_pos ⟨Nat.zero_le i, by omega⟩, h1]
  unfold shipStep
  dsimp only [Option.map]
  rw [h2]
  rfl

/-- Witness for the amended C7 at an explicit input: ship 1 of the
two-emitter scenario is committed the result computed with the fresh
generator `new_rng simC7.tickIdx`. -/
theorem tick_rng_fresh_per_emitter_witness :
    (tick ctxQ simC7).ships[1]? = some { ship1C7 with radar := some { radarC7 with
      result := (assembleResult ctxQ (mkEmitter 1 ship1C7 radarC7)
        (selectBest ctxQ (mkEmitter 1 ship1C7 radarC7) (simC7.ships.map mkReflector))
        (new_rng simC7.tickIdx)).1 } } :=
  tick_rng_fresh_per_emitter ctxQ simC7 1 ship1C7 radarC7 rfl rfl

/-- Counterexample to C7 as stated: in the two-emitter scenario both
ships detect each other with rssi exactly 1, and the committed results
show that the later-evaluated emitter received exactly the same random
draws as the earlier one — both position estimates are offset from
ground truth by (1, 2) and both velocity estimates by (3, 4), the first
four samples of the stream seeded with tick 0 under `ctxQ.normal`.  Had
the emitters shared one advancing stream as the claim states, the second
emitter would have consumed the subsequent samples and been offset by
(5, 6) and (7, 8) instead. -/
theorem tick_same_draws_counterexample :
    ((tick ctxQ simC7).ships[0]?).bind (fun s => Option.bind s.radar (fun r => r.result)) =
      some ⟨some ShipClass.target, ⟨1 + 1, 0 + 2⟩, ⟨0 + 3, 0 + 4⟩⟩ ∧
    ((tick ctxQ simC7).ships[1]?).bind (fun s => Option.bind s.radar (fun r => r.result)) =
      some ⟨some ShipClass.fighter, ⟨0 + 1, 0 + 2⟩, ⟨0 + 3, 0 + 4⟩⟩ := by
  constructor <;>
    norm_num [tick, processShip, shipStep, radarResult, assembleResult, selectBest,
      selectLoop, compute_rssi, distance_squared, check_inside_beam, mkEmitter,
      mkReflector, noise, sample, new_rng, List.range_succ,
      ctxQ, simC7, ship0C7, ship1C7, radarC7]

end Claims4

end Oort
